import Mathlib

/-!
Verification of the ClimateTemplate raster-publishing pipeline.

This file gives a shallow embedding, in Lean 4, of the algorithmic core of
the ClimateTemplate repository: the boundary-based raster classifier
(`src/raster_utils.py`, `reclassify_raster`), the renderer's no-data masking
and continuous color-gradient construction
(`src/data_processor.py`, `create_visualization_countinious_with_shapefiles`),
the filename-derived grouping keys (`process_raster_for_layout`), the
date-sorted series renaming (`rename_and_copy_images`), the grid compositor,
the concurrency-bounded API publisher (`src/transport/api.py`), and the
Python module-import structure around the missing `combine_maps_with_layout`.

Numeric raster values and palette boundaries are embedded as rationals;
NumPy array operations become `List` maps; Python functions that can raise
become `Option`/`Except`-valued functions.
-/

/-! ## Classifier: `reclassify_raster` (src/raster_utils.py lines 100-143)

The source computes `np.digitize(raster_data, bins=boundaries, right=True) - 1`
over the whole grid.  For monotonically increasing `bins`, NumPy's
`digitize(x, bins, right=True)` returns the index `i` with
`bins[i-1] < x <= bins[i]`, which equals the number of bin edges strictly
below `x`. -/

/-- NumPy `np.digitize(v, bins, right=True)` for increasing `bins`:
the number of entries of `bins` that are strictly less than `v`. -/
def digitize_right (bins : List ℚ) (v : ℚ) : ℕ :=
  bins.countP (fun b => decide (b < v))

/-- Per-cell result of `np.digitize(raster_data, bins=boundaries, right=True) - 1`. -/
def reclassify_cell (bins : List ℚ) (v : ℚ) : ℤ :=
  (digitize_right bins v : ℤ) - 1

/-- `classes.astype(rasterio.int16)`: wrap an integer into the int16 range. -/
def to_int16 (z : ℤ) : ℤ :=
  ((z + 32768) % 65536) - 32768

/-- The written raster: the reclassified band plus the profile's no-data value. -/
structure ReclassifiedRaster where
  data : List ℤ
  nodata : ℚ
  deriving DecidableEq

/-- `reclassify_raster` (src/raster_utils.py lines 100-143): every cell of the
band is digitized against `boundaries` (no cell is exempted), the output is
cast to int16, and the profile keeps `src.nodata`, defaulting to `-999.0`
when the source raster stores none. -/
def reclassify_raster (boundaries : List ℚ) (band : List ℚ) (src_nodata : Option ℚ) :
    ReclassifiedRaster :=
  { data := band.map (fun v => to_int16 (reclassify_cell boundaries v))
    nodata := src_nodata.getD (-999) }

/-- The no-data mask of `create_visualization_countinious_with_shapefiles`
(src/data_processor.py lines 150-163): in discrete mode a cell is masked when
its value is `-999` or equals the stored no-data value; in continuous mode
the mask is recomputed as value `-999` or `-1`. -/
def render_mask (continuous : Bool) (nodata : Option ℚ) (v : ℚ) : Bool :=
  if continuous then decide (v = -999) || decide (v = -1)
  else
    decide (v = -999) ||
      (match nodata with
       | some nd => decide (v = nd)
       | none => false)

/-- AWD palette boundaries from `PALETTES_V2` (src/constants.py): an indicator
that is reclassified (its type is neither `"AWP"` nor `"FWI"`). -/
def awd_boundaries : List ℚ := [-200, -60, -30, 0, 30, 60, 200]

/-! Helper lemmas about `countP` of a sorted list. -/

lemma countP_lt_of_le_head (bins : List ℚ) (v : ℚ)
    (hs : List.Sorted (· ≤ ·) bins) (hne : bins ≠ [])
    (h : v ≤ bins.head hne) :
    bins.countP (fun b => decide (b < v)) = 0 := by
  refine List.countP_eq_zero.mpr ?_
  intro a ha
  obtain ⟨j, hj, rfl⟩ := List.mem_iff_getElem.mp ha
  have h0 : bins.head hne = bins[0] := List.head_eq_getElem bins hne
  have h0j : bins[0] ≤ bins[j] := by
    rcases Nat.eq_zero_or_pos j with hz | hpos
    · subst hz; exact le_refl _
    · have := List.Sorted.rel_get_of_lt hs
        (a := ⟨0, List.length_pos.mpr hne⟩)
        (b := ⟨j, hj⟩) (by simpa using hpos)
      simpa [List.get_eq_getElem] using this
  have : v ≤ bins[j] := le_trans (h0 ▸ h) h0j
  simpa using not_lt.mpr this

lemma countP_lt_of_last_lt (bins : List ℚ) (v : ℚ)
    (hs : List.Sorted (· ≤ ·) bins) (hne : bins ≠ [])
    (h : bins.getLast hne < v) :
    bins.countP (fun b => decide (b < v)) = bins.length := by
  refine List.countP_eq_length.mpr ?_
  intro a ha
  obtain ⟨j, hj, rfl⟩ := List.mem_iff_getElem.mp ha
  have hlen : 0 < bins.length := List.length_pos.mpr hne
  have hlast : bins.getLast hne = bins[bins.length - 1] :=
    List.getLast_eq_getElem bins hne
  have hjle : bins[j] ≤ bins[bins.length - 1] := by
    rcases lt_or_eq_of_le (Nat.le_sub_one_of_lt hj) with hlt | heq
    · have := List.Sorted.rel_get_of_lt hs (a := ⟨j, hj⟩)
        (b := ⟨bins.length - 1, Nat.sub_lt hlen Nat.one_pos⟩) (by simpa using hlt)
      simpa [List.get_eq_getElem] using this
    · simp [heq]
  have : bins[j] < v := lt_of_le_of_lt (hlast ▸ hjle) h
  simpa using this

lemma countP_lt_between (bins : List ℚ) (v : ℚ)
    (hs : List.Sorted (· ≤ ·) bins) (i : ℕ) (hi : i + 1 < bins.length)
    (h1 : bins.get ⟨i, Nat.lt_of_succ_lt hi⟩ < v)
    (h2 : v ≤ bins.get ⟨i + 1, hi⟩) :
    bins.countP (fun b => decide (b < v)) = i + 1 := by
  have hsplit : bins = bins.take (i + 1) ++ bins.drop (i + 1) :=
    (List.take_append_drop _ _).symm
  rw [hsplit, List.countP_append]
  have htake : (bins.take (i + 1)).countP (fun b => decide (b < v)) =
      (bins.take (i + 1)).length := by
    refine List.countP_eq_length.mpr ?_
    intro a ha
    obtain ⟨j, hj, rfl⟩ := List.mem_iff_getElem.mp ha
    have hjlen : j < bins.length := by
      have := hj
      simp only [List.length_take] at this
      exact lt_of_lt_of_le this (le_trans inf_le_left (le_of_lt hi))
    have hje : (bins.take (i + 1))[j] = bins[j] := List.getElem_take bins
    have hji : j ≤ i := by
      have := hj
      simp only [List.length_take] at this
      omega
    have hrel : bins[j] ≤ bins.get ⟨i, Nat.lt_of_succ_lt hi⟩ := by
      rcases lt_or_eq_of_le hji with hlt | heq
      · have := List.Sorted.rel_get_of_lt hs (a := ⟨j, hjlen⟩)
          (b := ⟨i, Nat.lt_of_succ_lt hi⟩) (by simpa using hlt)
        simpa [List.get_eq_getElem] using this
      · subst heq; simp [List.get_eq_getElem]
    have : bins[j] < v := lt_of_le_of_lt hrel h1
    simpa [hje] using this
  have hdrop : (bins.drop (i + 1)).countP (fun b => decide (b < v)) = 0 := by
    refine List.countP_eq_zero.mpr ?_
    intro a ha
    obtain ⟨j, hj, rfl⟩ := List.mem_iff_getElem.mp ha
    have hjlen : i + 1 + j < bins.length := by
      have := hj
      simp only [List.length_drop] at this
      omega
    have hje : (bins.drop (i + 1))[j] = bins.get ⟨i + 1 + j, hjlen⟩ := by
      simp [List.get_eq_getElem, List.getElem_drop bins (i := i + 1) (j := j) (h := hj)]
    have hrel : bins.get ⟨i + 1, hi⟩ ≤ bins.get ⟨i + 1 + j, hjlen⟩ := by
      rcases Nat.eq_zero_or_pos j with hz | hpos
      · subst hz; simp [List.get_eq_getElem]
      · have := List.Sorted.rel_get_of_lt hs (a := ⟨i + 1, hi⟩)
          (b := ⟨i + 1 + j, hjlen⟩) (by simpa using hpos)
        simpa [List.get_eq_getElem] using this
    have : v ≤ (bins.drop (i + 1))[j] := by
      rw [hje]; exact le_trans h2 hrel
    simpa using not_lt.mpr this
  rw [htake, hdrop]
  simp only [List.length_take]
  omega

/-- C1. For a discrete palette, classification bins a cell value with
right-closed bins: if `boundaries[i] < v <= boundaries[i+1]` (zero-based)
the cell gets class `i`; a value at or below the first boundary gets the
extreme open-ended class `-1`, and a value above the last boundary gets the
extreme open-ended class `len - 1` — clamped, never an error. -/
theorem c1_classifier_right_closed (bins : List ℚ) (v : ℚ)
    (hs : List.Sorted (· ≤ ·) bins) :
    (∀ (i : ℕ) (hi : i + 1 < bins.length),
        bins.get ⟨i, Nat.lt_of_succ_lt hi⟩ < v →
        v ≤ bins.get ⟨i + 1, hi⟩ →
        reclassify_cell bins v = (i : ℤ)) ∧
    (∀ hne : bins ≠ [], v ≤ bins.head hne → reclassify_cell bins v = -1) ∧
    (∀ hne : bins ≠ [], bins.getLast hne < v →
        reclassify_cell bins v = (bins.length : ℤ) - 1) := by
  refine ⟨?_, ?_, ?_⟩
  · intro i hi h1 h2
    have := countP_lt_between bins v hs i hi h1 h2
    simp [reclassify_cell, digitize_right, this]
  · intro hne h
    have := countP_lt_of_le_head bins v hs hne h
    simp [reclassify_cell, digitize_right, this]
  · intro hne h
    have := countP_lt_of_last_lt bins v hs hne h
    simp [reclassify_cell, digitize_right, this]

/-- Witness for C1 at the concrete sorted boundaries `[0, 10, 20]` and `v = 15`:
`boundaries[1] = 10 < 15 <= 20 = boundaries[2]`, so the class is `1`. -/
theorem c1_classifier_right_closed_witness :
    List.Sorted (· ≤ ·) [(0 : ℚ), 10, 20] ∧
    reclassify_cell [(0 : ℚ), 10, 20] 15 = 1 := by
  refine ⟨by decide, ?_⟩
  have h := (c1_classifier_right_closed [(0 : ℚ), 10, 20] 15 (by decide)).1
      1 (by decide) (by decide) (by decide)
  simpa using h

/-- C2 counterexample. The stored no-data sentinel `-999` is NOT preserved by
classification: with the AWD boundaries (an indicator that is reclassified)
the sentinel lies below the first boundary, is digitized like any other value
to class `-1`, and the discrete render mask — which fires only on `-999` or
the stored sentinel — no longer recognizes the cell, so it is not masked. -/
theorem c2_counterexample :
    (reclassify_raster awd_boundaries [(-999 : ℚ)] none).data = [-1] ∧
    (reclassify_raster awd_boundaries [(-999 : ℚ)] none).nodata = -999 ∧
    ((-1 : ℤ) ≠ (-999 : ℤ)) ∧
    render_mask false (some (-999)) ((-1 : ℚ)) = false := by
  refine ⟨?_, ?_, by decide, by decide⟩
  · simp [reclassify_raster, reclassify_cell, digitize_right, awd_boundaries, to_int16]
    decide
  · simp [reclassify_raster]

/-- C2 amended. Classification bins the stored no-data value like any other
cell value (only the profile metadata keeps the sentinel): with the AWD
boundaries a `-999` cell becomes class `-1` while a valid cell `45` becomes
class `4`; the discrete render masks a cell as transparent exactly when its
value equals `-999` or the stored sentinel, so the reclassified no-data cell
is no longer masked. -/
theorem c2_amended :
    (reclassify_raster awd_boundaries [(-999 : ℚ), 45] none).data = [-1, 4] ∧
    (reclassify_raster awd_boundaries [(-999 : ℚ), 45] none).nodata = -999 ∧
    (∀ v nd : ℚ, render_mask false (some nd) v = true ↔ (v = -999 ∨ v = nd)) ∧
    render_mask false (some (-999)) ((-1 : ℚ)) = false := by
  refine ⟨?_, by simp [reclassify_raster], ?_, by decide⟩
  · simp [reclassify_raster, reclassify_cell, digitize_right, awd_boundaries, to_int16]
    decide
  · intro v nd
    simp [render_mask]

/-! ## Filename-derived grouping keys
(`process_raster_for_layout`, src/raster_utils.py lines 52-97)

Python strings are embedded as `List Char`; `str.split(sep)` and Python's
substring test `pat in s` are implemented below with their Python
semantics. -/

/-- Python `s.split(sep)` for a one-character separator: splits at every
occurrence, keeping empty pieces; the result is never the empty list. -/
def py_split (sep : Char) : List Char → List (List Char)
  | [] => [[]]
  | c :: rest =>
    match py_split sep rest with
    | [] => [[]]
    | h :: t => if c = sep then [] :: h :: t else (c :: h) :: t

/-- Python `pat in s`: contiguous-substring test. -/
def is_substring (pat : List Char) : List Char → Bool
  | [] => pat.isEmpty
  | c :: rest => pat.isPrefixOf (c :: rest) || is_substring pat rest

/-- Python `pathlib.Path(name).stem`: the final path component without its
last suffix (the part from the last `'.'`, provided that dot is not the
first character). -/
def py_stem (name : List Char) : List Char :=
  let rtail := name.reverse.takeWhile (fun c => ¬ (c = '.'))
  if rtail.length = name.length then name
  else if name.length - rtail.length - 1 = 0 then name
  else name.take (name.length - rtail.length - 1)

/-- The indicator/palette key: first `'_'`-separated token of the stem
(`raster_parts_name[0]`, src/raster_utils.py line 54). -/
def indicator_key (stem : List Char) : List Char :=
  (py_split '_' stem).headD []

/-- The background group key (src/raster_utils.py lines 84-91): if the
indicator key contains `"AW"`, join the first two tokens with `'_'` and drop
the last two characters (`background_type[:-2]`); accessing the second token
raises `IndexError` in Python when it does not exist, hence `none`.  If the
key contains `"FWI"`, the literal `"FWI_GenZ"`.  Otherwise the indicator key
itself. -/
def background_key (stem : List Char) : Option (List Char) :=
  let parts := py_split '_' stem
  let t := parts.headD []
  if is_substring ("AW".toList) t then
    match parts with
    | _ :: p1 :: _ => some ((t ++ '_' :: p1).dropLast.dropLast)
    | _ => none
  else if is_substring ("FWI".toList) t then some ("FWI_GenZ".toList)
  else some t

/-- Group-key resolution for a raster filename: both keys are derived from
the file stem. -/
def resolve_group_keys (filename : List Char) : Option (List Char × List Char) :=
  (background_key (py_stem filename)).map (fun bg => (indicator_key (py_stem filename), bg))

/-- C3 counterexample. Resolving `"AWP_0-40_2024-05-01.tif"` does NOT yield
background group key `"AWP_0-40"`: the code joins `"AWP"` and `"0-40"` and
then strips the last two characters, producing `"AWP_0-"`. -/
theorem c3_counterexample :
    resolve_group_keys ("AWP_0-40_2024-05-01.tif".toList) =
      some ("AWP".toList, "AWP_0-".toList) ∧
    "AWP_0-".toList ≠ "AWP_0-40".toList := by
  constructor
  · decide
  · decide

/-- C3 amended. Group-key resolution splits the stem on `'_'` and takes the
first token as the indicator key; when the indicator key contains `"AW"` the
background group key is the first two tokens joined by `'_'` with the last
two characters stripped — so `"AWP_0-40_2024-05-01.tif"` yields `"AWP_0-"`,
while the depth-suffixed `"AWP_0-40cm_2024-05-01.tif"` yields `"AWP_0-40"`;
when it contains `"FWI"` the key is the literal `"FWI_GenZ"`; otherwise the
indicator key is unchanged. -/
theorem c3_amended :
    (∀ (t p1 : List Char) (rest : List (List Char)) (stem : List Char),
        py_split '_' stem = t :: p1 :: rest →
        is_substring ("AW".toList) t = true →
        background_key stem = some ((t ++ '_' :: p1).dropLast.dropLast)) ∧
    (∀ (t : List Char) (rest : List (List Char)) (stem : List Char),
        py_split '_' stem = t :: rest →
        is_substring ("AW".toList) t = false →
        is_substring ("FWI".toList) t = true →
        background_key stem = some ("FWI_GenZ".toList)) ∧
    (∀ (t : List Char) (rest : List (List Char)) (stem : List Char),
        py_split '_' stem = t :: rest →
        is_substring ("AW".toList) t = false →
        is_substring ("FWI".toList) t = false →
        background_key stem = some t) ∧
    resolve_group_keys ("AWP_0-40_2024-05-01.tif".toList) =
      some ("AWP".toList, "AWP_0-".toList) ∧
    resolve_group_keys ("AWP_0-40cm_2024-05-01.tif".toList) =
      some ("AWP".toList, "AWP_0-40".toList) ∧
    resolve_group_keys ("FWI_GenZ_2024-05-01.tif".toList) =
      some ("FWI".toList, "FWI_GenZ".toList) ∧
    resolve_group_keys ("UTCI_2024-05-01.tif".toList) =
      some ("UTCI".toList, "UTCI".toList) := by
  have eaw : ("AW".toList) = ['A', 'W'] := by decide
  have efwi : ("FWI".toList) = ['F', 'W', 'I'] := by decide
  refine ⟨?_, ?_, ?_, by decide, by decide, by decide, by decide⟩
  · intro t p1 rest stem hsplit haw
    rw [eaw] at haw
    simp [background_key, hsplit, haw]
  · intro t rest stem hsplit haw hfwi
    rw [eaw] at haw
    rw [efwi] at hfwi
    cases rest with
    | nil => simp [background_key, hsplit, haw, hfwi]
    | cons p1 rest => simp [background_key, hsplit, haw, hfwi]
  · intro t rest stem hsplit haw hfwi
    rw [eaw] at haw
    rw [efwi] at hfwi
    cases rest with
    | nil => simp [background_key, hsplit, haw, hfwi]
    | cons p1 rest => simp [background_key, hsplit, haw, hfwi]

/-- Witness for C3 at the depth-suffixed stem `"AWP_0-40cm_2024-05-01"`:
its split has `"AWP"` first (which contains `"AW"`), and the background key
is the joined first two tokens with the last two characters stripped. -/
theorem c3_amended_witness :
    py_split '_' ("AWP_0-40cm_2024-05-01".toList) =
      ["AWP".toList, "0-40cm".toList, "2024-05-01".toList] ∧
    is_substring ("AW".toList) ("AWP".toList) = true ∧
    background_key ("AWP_0-40cm_2024-05-01".toList) =
      some (("AWP".toList ++ '_' :: "0-40cm".toList).dropLast.dropLast) :=
  ⟨by decide, by decide,
    c3_amended.1 ("AWP".toList) ("0-40cm".toList) ["2024-05-01".toList]
      ("AWP_0-40cm_2024-05-01".toList) (by decide) (by decide)⟩

/-! ## Continuous-mode color gradient
(`create_visualization_countinious_with_shapefiles`, src/data_processor.py
lines 158-179)

The source rescales `colors_list` to `[0,1]`, takes `min_val = boundaries[1]`
and `max_val = boundaries[-1]`, computes
`positions = [0] + [(b - min_val) / (max_val - min_val) for b in boundaries[1:]]`,
and calls `LinearSegmentedColormap.from_list` on
`zip(positions, normalized_colors[1:])` (Python `zip` truncates to the
shorter argument).  Matplotlib's colormap is modelled as exact
piecewise-linear interpolation between the `(position, color)` anchors;
`from_list` rejects anchor lists whose positions do not run monotonically
from 0 to 1 (`ValueError: data mapping points must start with x=0 and end
with x=1`), and evaluation clips its input into `[0, 1]`. -/

/-- An RGB triple with channels in `[0, 1]`. -/
abbrev RgbQ : Type := ℚ × ℚ × ℚ

/-- `tuple(c / 255.0 for c in color)`. -/
def normalize_color (c : RgbQ) : RgbQ :=
  (c.1 / 255, c.2.1 / 255, c.2.2 / 255)

/-- Adjacent anchor positions must be nondecreasing. -/
def anchors_monotone : List (ℚ × RgbQ) → Bool
  | [] => true
  | [_] => true
  | p :: q :: rest => decide (p.1 ≤ q.1) && anchors_monotone (q :: rest)

/-- `LinearSegmentedColormap.from_list` on explicit `(position, color)`
pairs: accepted only when the positions start at 0, end at 1, and are
nondecreasing; otherwise matplotlib raises `ValueError`. -/
def from_list (anchors : List (ℚ × RgbQ)) : Except String (List (ℚ × RgbQ)) :=
  match anchors with
  | [] => Except.error "ValueError: at least one color required"
  | a :: rest =>
    if a.1 = 0 ∧ ((a :: rest).getLastD a).1 = 1 ∧ anchors_monotone (a :: rest) = true
    then Except.ok (a :: rest)
    else Except.error "data mapping points must start with x=0 and end with x=1"

/-- Linear interpolation between two anchors, each RGB channel
independently. -/
def lin_interp (x0 x1 : ℚ) (c0 c1 : RgbQ) (t : ℚ) : RgbQ :=
  let w := (t - x0) / (x1 - x0)
  (c0.1 + w * (c1.1 - c0.1),
   c0.2.1 + w * (c1.2.1 - c0.2.1),
   c0.2.2 + w * (c1.2.2 - c0.2.2))

/-- Piecewise-linear evaluation over the anchor list (input already clipped
into the anchor range). -/
def eval_anchors : List (ℚ × RgbQ) → ℚ → RgbQ
  | [], _ => (0, 0, 0)
  | [(_, c)], _ => c
  | (x0, c0) :: (x1, c1) :: rest, t =>
    if t ≤ x1 then lin_interp x0 x1 c0 c1 t else eval_anchors ((x1, c1) :: rest) t

/-- Colormap evaluation: matplotlib clips the normalized input into `[0,1]`
(under/over values take the extreme anchor colors), then interpolates. -/
def cmap_eval (anchors : List (ℚ × RgbQ)) (t : ℚ) : RgbQ :=
  eval_anchors anchors (if t < 0 then 0 else if 1 < t then 1 else t)

/-- `min_val = boundaries[1]`, `max_val = boundaries[-1]`,
`positions = [0] + [(b - min_val) / (max_val - min_val) for b in boundaries[1:]]`;
`none` models the `IndexError` when fewer than two boundaries exist. -/
def continuous_positions (boundaries : List ℚ) : Option (List ℚ) :=
  match boundaries[1]?, boundaries.getLast? with
  | some mn, some mx =>
    some (0 :: (boundaries.drop 1).map (fun b => (b - mn) / (mx - mn)))
  | _, _ => none

/-- The continuous-mode colormap:
`LinearSegmentedColormap.from_list("custom_cmap", list(zip(positions, normalized_colors[1:])))`. -/
def build_continuous_cmap (boundaries : List ℚ) (colors : List RgbQ) :
    Except String (List (ℚ × RgbQ)) :=
  match continuous_positions boundaries with
  | none => Except.error "IndexError"
  | some ps => from_list (ps.zip ((colors.map normalize_color).drop 1))

/-- The color assigned to a raster value in continuous mode:
`Normalize(vmin=min_val, vmax=max_val)` followed by colormap lookup. -/
def continuous_color_at (boundaries : List ℚ) (colors : List RgbQ) (v : ℚ) :
    Except String RgbQ :=
  match boundaries[1]?, boundaries.getLast? with
  | some mn, some mx =>
    (build_continuous_cmap boundaries colors).map
      (fun cm => cmap_eval cm ((v - mn) / (mx - mn)))
  | _, _ => Except.error "IndexError"

/-- C6 counterexample. For the palette with boundaries `[-40, 0, 40]` and the
two colors black and white, the value `-20` does NOT map to midpoint grey:
the code drops the first color and prepends an extra 0 position, so the
truncating `zip` leaves the single anchor `(0, white)` and colormap
construction fails — no color at all is produced. -/
theorem c6_counterexample :
    build_continuous_cmap [-40, 0, 40] [(0, 0, 0), (255, 255, 255)] =
      Except.error "data mapping points must start with x=0 and end with x=1" ∧
    continuous_color_at [-40, 0, 40] [(0, 0, 0), (255, 255, 255)] (-20) =
      Except.error "data mapping points must start with x=0 and end with x=1" := by
  constructor
  · simp [build_continuous_cmap, continuous_positions, from_list]
  · simp [continuous_color_at, build_continuous_cmap, continuous_positions, from_list,
      Except.map]

/-- C6 amended. Continuous-mode anchor positions are a prepended `0` followed
by each boundary after the first rescaled into `[0,1]` against
`boundaries[1]` and the last boundary, paired with the colors after the
first under a truncating `zip`; between valid anchors the RGB channels are
interpolated linearly and independently.  With three boundaries and two
colors the truncation leaves a single anchor at position 0 and colormap
construction always fails, so for boundaries `[-40, 0, 40]` and colors
black/white the value `-20` produces an error rather than midpoint grey. -/
theorem c6_amended :
    (∀ b0 b1 b2 : ℚ, ∀ c0 c1 : RgbQ,
        build_continuous_cmap [b0, b1, b2] [c0, c1] =
          Except.error "data mapping points must start with x=0 and end with x=1") ∧
    (∀ (c0 c1 : RgbQ) (t : ℚ), 0 ≤ t → t ≤ 1 →
        cmap_eval [(0, c0), (1, c1)] t =
          (c0.1 + t * (c1.1 - c0.1),
           c0.2.1 + t * (c1.2.1 - c0.2.1),
           c0.2.2 + t * (c1.2.2 - c0.2.2))) ∧
    continuous_color_at [-40, 0, 40] [(0, 0, 0), (255, 255, 255)] (-20) =
      Except.error "data mapping points must start with x=0 and end with x=1" := by
  refine ⟨?_, ?_, ?_⟩
  · intro b0 b1 b2 c0 c1
    simp [build_continuous_cmap, continuous_positions, from_list]
  · intro c0 c1 t ht0 ht1
    have hclip : (if t < 0 then (0 : ℚ) else if 1 < t then 1 else t) = t := by
      rw [if_neg (not_lt.mpr ht0), if_neg (not_lt.mpr ht1)]
    simp only [cmap_eval, hclip, eval_anchors, if_pos ht1, lin_interp]
    norm_num
  · simp [continuous_color_at, build_continuous_cmap, continuous_positions, from_list,
      Except.map]

/-- Witness for C6 at `t = 0` between a black anchor at position 0 and a
white anchor at position 1: the interpolated color is the left anchor's. -/
theorem c6_amended_witness :
    (0 : ℚ) ≤ 0 ∧ (0 : ℚ) ≤ 1 ∧
    cmap_eval [((0 : ℚ), ((0 : ℚ), (0 : ℚ), (0 : ℚ))), (1, (1, 1, 1))] 0 =
      (0 + 0 * (1 - 0), 0 + 0 * (1 - 0), 0 + 0 * (1 - 0)) :=
  ⟨by decide, by decide,
    c6_amended.2.1 ((0 : ℚ), (0 : ℚ), (0 : ℚ)) ((1 : ℚ), (1 : ℚ), (1 : ℚ)) 0
      (by decide) (by decide)⟩

/-! ## Series organizer: `rename_and_copy_images`
(src/raster_utils.py lines 146-197)

The source sorts each group's paths by
`datetime.strptime(stem.split("_")[-1], "%Y-%m-%d")`, falling back to
`datetime.min` on `ValueError` (logged, not rejected), then copies each file
under a new name built from the date-stripped tokens plus the zero-based
enumeration index.  Python's `sorted` is the stable ascending sort by the
key, embedded here through Mathlib's stable `insertionSort`.  `strptime`
with format `"%Y-%m-%d"` requires exactly four year digits, one or two
month digits in `1..12`, one or two day digits in `1..31`, and the
`datetime` constructor additionally requires `year >= 1` and a day valid
for the month. -/

/-- Numeric value of a digit string. -/
def digits_val (l : List Char) : ℕ :=
  l.foldl (fun a c => 10 * a + (c.toNat - 48)) 0

/-- `strptime` `%Y` field: exactly four digits. -/
def parse_year (s : List Char) : Option ℕ :=
  if s.length = 4 ∧ s.all (fun c => c.isDigit) then some (digits_val s) else none

/-- `strptime` `%m` field: one or two digits with value in `1..12`. -/
def parse_month (s : List Char) : Option ℕ :=
  if (s.length = 1 ∨ s.length = 2) ∧ s.all (fun c => c.isDigit) ∧
      1 ≤ digits_val s ∧ digits_val s ≤ 12
  then some (digits_val s) else none

/-- `strptime` `%d` field: one or two digits with value in `1..31`. -/
def parse_day (s : List Char) : Option ℕ :=
  if (s.length = 1 ∨ s.length = 2) ∧ s.all (fun c => c.isDigit) ∧
      1 ≤ digits_val s ∧ digits_val s ≤ 31
  then some (digits_val s) else none

/-- Gregorian leap year, as in Python's `calendar.isleap`. -/
def is_leap (y : ℕ) : Bool :=
  decide (y % 4 = 0) && (decide (¬ y % 100 = 0) || decide (y % 400 = 0))

/-- Days in a month, used by the `datetime` constructor's validity check. -/
def days_in_month (y m : ℕ) : ℕ :=
  if m = 2 then (if is_leap y then 29 else 28)
  else if m = 4 ∨ m = 6 ∨ m = 9 ∨ m = 11 then 30
  else 31

/-- Combine the three parsed fields, with the `datetime` constructor's
validity constraints (`year >= 1`, day valid for the month). -/
def mk_date (oy om od : Option ℕ) : Option (ℕ × ℕ × ℕ) :=
  match oy, om, od with
  | some y, some m, some d =>
    if 1 ≤ y ∧ d ≤ days_in_month y m then some (y, m, d) else none
  | _, _, _ => none

/-- `datetime.strptime(s, "%Y-%m-%d")`: `none` models the caught
`ValueError`. -/
def try_parse_date (s : List Char) : Option (ℕ × ℕ × ℕ) :=
  match py_split '-' s with
  | [ys, ms, ds] => mk_date (parse_year ys) (parse_month ms) (parse_day ds)
  | _ => none

/-- `datetime.min`, the fallback for files without a parseable date. -/
def MIN_DATE : ℕ × ℕ × ℕ := (1, 1, 1)

/-- `extract_date` (src/raster_utils.py lines 170-178): parse the last
`'_'`-separated token of the stem, defaulting to `datetime.min`. -/
def extract_date (path : List Char) : ℕ × ℕ × ℕ :=
  (try_parse_date ((py_split '_' (py_stem path)).getLastD [])).getD MIN_DATE

/-- Order-embedding of a (year, month, day) triple into `ℕ`; for the values
produced by `extract_date` (`month <= 12 < 100`, `day <= 31 < 100`) it is
order-isomorphic to lexicographic date order. -/
def date_key (d : ℕ × ℕ × ℕ) : ℕ :=
  d.1 * 10000 + d.2.1 * 100 + d.2.2

/-- The sort relation of `sorted(paths, key=extract_date)`. -/
def date_le (p q : List Char) : Prop :=
  date_key (extract_date p) ≤ date_key (extract_date q)

instance : DecidableRel date_le :=
  fun _ _ => Nat.decLe _ _

instance : IsTotal (List Char) date_le :=
  ⟨fun _ _ => Nat.le_total _ _⟩

instance : IsTrans (List Char) date_le :=
  ⟨fun _ _ _ => Nat.le_trans⟩

/-- `sorted(paths, key=extract_date)`: the stable ascending sort. -/
def sorted_paths (paths : List (List Char)) : List (List Char) :=
  List.insertionSort date_le paths

/-- The `DFM` token rewrite (src/raster_utils.py lines 187-189):
a token starting with `"DFM"` and longer than three characters becomes
`"DFM_" + rest`. -/
def dfm_munge (part : List Char) : List Char :=
  if ("DFM".toList).isPrefixOf part ∧ 3 < part.length
  then ("DFM_".toList) ++ part.drop 3 else part

/-- The new file name (src/raster_utils.py lines 185-191): the stem's tokens
without the trailing date token, `DFM`-munged, joined by `'_'`, then the
zero-based sequence index and the `.png` suffix. -/
def renamed_png (stem : List Char) (i : ℕ) : List Char :=
  List.intercalate ['_'] (((py_split '_' stem).dropLast).map dfm_munge) ++
    '_' :: Nat.toDigits 10 i ++ (".png".toList)

/-- `rename_and_copy_images` for one background group: each source path,
taken in date-sorted order, is written out under its renamed stem with its
zero-based sequence index. -/
def rename_and_copy_images (paths : List (List Char)) : List (List Char) :=
  (sorted_paths paths).enum.map (fun pr => renamed_png (py_stem pr.2) pr.1)

lemma parse_month_bounds (s : List Char) (m : ℕ) (h : parse_month s = some m) :
    1 ≤ m ∧ m ≤ 12 := by
  unfold parse_month at h
  split at h
  · rename_i hc
    obtain rfl : digits_val s = m := by injection h
    exact ⟨hc.2.2.1, hc.2.2.2⟩
  · simp at h

lemma parse_day_bounds (s : List Char) (d : ℕ) (h : parse_day s = some d) :
    1 ≤ d ∧ d ≤ 31 := by
  unfold parse_day at h
  split at h
  · rename_i hc
    obtain rfl : digits_val s = d := by injection h
    exact ⟨hc.2.2.1, hc.2.2.2⟩
  · simp at h

lemma mk_date_bounds (a b c : List Char) (y m d : ℕ)
    (h : mk_date (parse_year a) (parse_month b) (parse_day c) = some (y, m, d)) :
    1 ≤ y ∧ 1 ≤ m ∧ 1 ≤ d := by
  cases hy : parse_year a with
  | none => rw [hy] at h; simp [mk_date] at h
  | some y0 =>
    cases hm : parse_month b with
    | none => rw [hy, hm] at h; simp [mk_date] at h
    | some m0 =>
      cases hd : parse_day c with
      | none => rw [hy, hm, hd] at h; simp [mk_date] at h
      | some d0 =>
        rw [hy, hm, hd] at h
        simp only [mk_date] at h
        split at h
        · rename_i hcond
          obtain ⟨rfl, rfl, rfl⟩ : y0 = y ∧ m0 = m ∧ d0 = d := by
            have := h
            simp at this
            exact ⟨this.1, this.2.1, this.2.2⟩
          exact ⟨hcond.1, (parse_month_bounds b _ hm).1, (parse_day_bounds c _ hd).1⟩
        · simp at h

lemma try_parse_date_pos (s : List Char) (y m d : ℕ)
    (h : try_parse_date s = some (y, m, d)) :
    1 ≤ y ∧ 1 ≤ m ∧ 1 ≤ d := by
  unfold try_parse_date at h
  split at h
  · exact mk_date_bounds _ _ _ _ _ _ h
  · simp at h

/-- Every extracted date key is at least the key of `datetime.min`. -/
lemma date_key_min_le (q : List Char) :
    date_key MIN_DATE ≤ date_key (extract_date q) := by
  unfold extract_date
  cases hq : try_parse_date ((py_split '_' (py_stem q)).getLastD []) with
  | none => simp [MIN_DATE]
  | some t =>
    obtain ⟨y, m, d⟩ := t
    obtain ⟨hy, hm, hd⟩ := try_parse_date_pos _ y m d hq
    simp only [Option.getD_some, date_key, MIN_DATE]
    omega

/-- C7. The series organizer sorts a group's images ascending by the date
parsed (format `YYYY-MM-DD`) from the last `'_'`-separated segment of each
stem; unparseable dates act as `datetime.min` and so sort first; each output
carries the zero-based index of its sorted position; images dated
`2024-03-01`, `2024-01-15`, `2024-02-10` come out in the order
`01-15, 02-10, 03-01` with sequence indices `0, 1, 2`. -/
theorem c7_series_organizer :
    (∀ paths : List (List Char), (sorted_paths paths).Perm paths) ∧
    (∀ paths : List (List Char), List.Sorted date_le (sorted_paths paths)) ∧
    (∀ p : List Char,
        try_parse_date ((py_split '_' (py_stem p)).getLastD []) = none →
        extract_date p = MIN_DATE ∧ ∀ q : List Char, date_le p q) ∧
    (∀ (paths : List (List Char)) (i : ℕ),
        (rename_and_copy_images paths)[i]? =
          ((sorted_paths paths)[i]?).map (fun p => renamed_png (py_stem p) i)) ∧
    rename_and_copy_images
        [("A_2024-03-01.png".toList), ("B_2024-01-15.png".toList),
         ("C_2024-02-10.png".toList)] =
      [("B_0.png".toList), ("C_1.png".toList), ("A_2.png".toList)] := by
  refine ⟨?_, ?_, ?_, ?_, ?_⟩
  · intro paths
    exact List.perm_insertionSort date_le paths
  · intro paths
    exact List.sorted_insertionSort date_le paths
  · intro p hp
    have he : extract_date p = MIN_DATE := by
      unfold extract_date
      rw [hp]
      rfl
    refine ⟨he, ?_⟩
    intro q
    unfold date_le
    rw [he]
    exact date_key_min_le q
  · intro paths i
    unfold rename_and_copy_images
    rw [List.getElem?_map, List.getElem?_enum]
    cases h : (sorted_paths paths)[i]? with
    | none => simp
    | some p => simp
  · decide

/-- Witness for C7: the stem of `"X.png"` has no parseable date, so it takes
the minimum date and sorts no later than a dated file. -/
theorem c7_series_organizer_witness :
    try_parse_date ((py_split '_' (py_stem ("X.png".toList))).getLastD []) = none ∧
    extract_date ("X.png".toList) = MIN_DATE ∧
    date_le ("X.png".toList) ("A_2024-03-01.png".toList) := by
  refine ⟨by decide, ?_, ?_⟩
  · exact (c7_series_organizer.2.2.1 ("X.png".toList) (by decide)).1
  · exact (c7_series_organizer.2.2.1 ("X.png".toList) (by decide)).2
      ("A_2024-03-01.png".toList)

/-! ## Layout compositor grid placement -/

/-- Modelled from the spec: the grid-placement rule of
`combine_maps_with_layout`, which both `src/data_processor.py` (line 18) and
`src/workers.py` (line 6) import and call but which is defined nowhere in
the source tree.  Spec section 4.5: image index `i` is placed at grid row
`i / 5` and column `i % 5` — five maps per row, left-to-right,
top-to-bottom, unbounded rows. -/
def combine_maps_grid_cell (i : ℕ) : ℕ × ℕ :=
  (i / 5, i % 5)

/-- Modelled from the spec: `combine_maps_with_layout` places the `i`-th
image of the ordered series at the grid cell `combine_maps_grid_cell i` on
the template canvas. -/
def combine_maps_with_layout (images : List ℕ) : List (ℕ × (ℕ × ℕ)) :=
  images.enum.map (fun pr => (pr.2, combine_maps_grid_cell pr.1))

/-- C8. For every ordered image list, the image at index `i` is placed at
grid row `i / 5`, column `i % 5` (the column always below 5); with 7 images,
image index 5 lands at row 1, column 0. -/
theorem c8_grid_layout :
    (∀ (images : List ℕ) (i : ℕ),
        (combine_maps_with_layout images)[i]? =
          (images[i]?).map (fun im => (im, (i / 5, i % 5)))) ∧
    (∀ i : ℕ, (combine_maps_grid_cell i).1 = i / 5 ∧
        (combine_maps_grid_cell i).2 = i % 5 ∧ i % 5 < 5) ∧
    (combine_maps_with_layout (List.range 7))[5]? = some (5, (1, 0)) := by
  refine ⟨?_, ?_, by decide⟩
  · intro images i
    unfold combine_maps_with_layout
    rw [List.getElem?_map, List.getElem?_enum]
    cases h : images[i]? with
    | none => simp
    | some im => simp [combine_maps_grid_cell]
  · intro i
    exact ⟨rfl, rfl, Nat.mod_lt i (by omega)⟩

/-! ## Publisher: `upload_files_to_api_async` and `upload_single_file`
(src/transport/api.py lines 34-136)

Each file's transfer has an environment-determined outcome: an HTTP
response (status and body), a timeout, an `aiohttp.ClientError`, or some
other unexpected exception.  `upload_single_file` performs the POST inside
`try`/`except` arms that catch `asyncio.TimeoutError`, `aiohttp.ClientError`
and `Exception`, returning `True` exactly for status 200 and `False` in
every other arm — it can never raise.  `asyncio.gather(*tasks,
return_exceptions=True)` returns one result per task, paired with the task
list by position and independent of completion order; completion order is
modelled as an explicit schedule (a permutation of the task indices) that
provably does not affect the result. -/

/-- The environment's outcome for one file transfer. -/
inductive TransferOutcome where
  | response : ℕ → String → TransferOutcome
  | timeout : TransferOutcome
  | client_error : String → TransferOutcome
  | unexpected_error : String → TransferOutcome
  deriving DecidableEq

/-- A raised Python exception inside the transfer. -/
inductive PyExc where
  | timeout_error : PyExc
  | client_exc : String → PyExc
  | other_exc : String → PyExc
  deriving DecidableEq

/-- `session.post(url, data=...)`: returns the response or raises. -/
def session_post : TransferOutcome → Except PyExc (ℕ × String)
  | TransferOutcome.response s b => Except.ok (s, b)
  | TransferOutcome.timeout => Except.error PyExc.timeout_error
  | TransferOutcome.client_error m => Except.error (PyExc.client_exc m)
  | TransferOutcome.unexpected_error m => Except.error (PyExc.other_exc m)

/-- `upload_single_file` (src/transport/api.py lines 100-136): `True` for
status 200, `False` for any other status, and `False` from each of the
three `except` arms; the `Except` result type records whether an exception
escapes — it never does. -/
def upload_single_file (o : TransferOutcome) : Except PyExc Bool :=
  match session_post o with
  | Except.ok (status, _) => if status = 200 then Except.ok true else Except.ok false
  | Except.error PyExc.timeout_error => Except.ok false
  | Except.error (PyExc.client_exc _) => Except.ok false
  | Except.error (PyExc.other_exc _) => Except.ok false

/-- Transfers completing in schedule order: each finished task reports its
task index and its result. -/
def run_schedule (outcomes : List TransferOutcome) : List ℕ → List (ℕ × Except PyExc Bool)
  | [] => []
  | i :: rest =>
    match outcomes[i]? with
    | some o => (i, upload_single_file o) :: run_schedule outcomes rest
    | none => run_schedule outcomes rest

/-- `asyncio.gather(*tasks, return_exceptions=True)`: the completed results
re-assembled by task index, one slot per task. -/
def gather_results (outcomes : List TransferOutcome) (sched : List ℕ) :
    List (Except PyExc Bool) :=
  (List.range outcomes.length).filterMap
    (fun i => (run_schedule outcomes sched).lookup i)

/-- `upload_files_to_api_async` (src/transport/api.py lines 34-97): when the
root folder is missing it logs an error and returns the empty `uploaded`
list; otherwise it gathers all per-file results and appends to `uploaded`
exactly the file paths whose result is truthy (`zip(all_files, results)`;
exceptions are logged, `False` results skipped). -/
def upload_files_to_api_async (dir_exists : Bool)
    (files : List (String × TransferOutcome)) (sched : List ℕ) : List String :=
  if dir_exists then
    ((files.map Prod.fst).zip (gather_results (files.map Prod.snd) sched)).foldl
      (fun acc pr =>
        match pr.2 with
        | Except.ok true => acc ++ [pr.1]
        | _ => acc) []
  else []

/-- The publish stage as a run step: the Python function contains no raise
path, so the run outcome is always a normal return of the uploaded list. -/
def upload_run (dir_exists : Bool) (files : List (String × TransferOutcome))
    (sched : List ℕ) : Except String (List String) :=
  Except.ok (upload_files_to_api_async dir_exists files sched)

lemma lookup_run_schedule_not_mem (outcomes : List TransferOutcome) :
    ∀ (sched : List ℕ) (i : ℕ), i ∉ sched →
      (run_schedule outcomes sched).lookup i = none := by
  intro sched
  induction sched with
  | nil => intro i _; rfl
  | cons j rest ih =>
    intro i hmem
    have hij : i ≠ j := fun h => hmem (h ▸ List.mem_cons_self j rest)
    have hr : i ∉ rest := fun h => hmem (List.mem_cons_of_mem j h)
    unfold run_schedule
    cases hj : outcomes[j]? with
    | some o =>
      rw [List.lookup_cons]
      rw [show (i == j) = false from beq_eq_false_iff_ne.mpr hij]
      exact ih i hr
    | none => exact ih i hr

lemma lookup_run_schedule (outcomes : List TransferOutcome) :
    ∀ (sched : List ℕ) (i : ℕ), i ∈ sched →
      (run_schedule outcomes sched).lookup i =
        (outcomes[i]?).map upload_single_file := by
  intro sched
  induction sched with
  | nil => intro i h; simp at h
  | cons j rest ih =>
    intro i hmem
    unfold run_schedule
    cases hj : outcomes[j]? with
    | some o =>
      by_cases hij : i = j
      · subst hij
        rw [List.lookup_cons]
        simp [hj]
      · have hr : i ∈ rest := by
          rcases List.mem_cons.mp hmem with h | h
          · exact absurd h hij
          · exact h
        rw [List.lookup_cons]
        rw [show (i == j) = false from beq_eq_false_iff_ne.mpr hij]
        exact ih i hr
    | none =>
      by_cases hij : i = j
      · subst hij
        rw [hj]
        by_cases hr : i ∈ rest
        · rw [ih i hr, hj]
        · rw [lookup_run_schedule_not_mem outcomes rest i hr]
          rfl
      · have hr : i ∈ rest := by
          rcases List.mem_cons.mp hmem with h | h
          · exact absurd h hij
          · exact h
        exact ih i hr

lemma filterMap_range_getElem {α β : Type} (l : List α) (g : α → β) :
    (List.range l.length).filterMap (fun i => (l[i]?).map g) = l.map g := by
  induction l with
  | nil => simp
  | cons a t ih =>
    rw [List.length_cons, List.range_succ_eq_map, List.filterMap_cons]
    simp only [List.getElem?_cons_zero, Option.map_some, List.filterMap_map]
    have hcomp : ((fun i => ((a :: t)[i]?).map g) ∘ Nat.succ) =
        (fun i => (t[i]?).map g) := by
      funext i
      simp
    rw [hcomp, ih]
    rfl

lemma gather_results_eq (outcomes : List TransferOutcome) (sched : List ℕ)
    (hperm : sched.Perm (List.range outcomes.length)) :
    gather_results outcomes sched = outcomes.map upload_single_file := by
  unfold gather_results
  have hcong : ∀ i ∈ List.range outcomes.length,
      (run_schedule outcomes sched).lookup i =
        (outcomes[i]?).map upload_single_file := by
    intro i hi
    exact lookup_run_schedule outcomes sched i (hperm.mem_iff.mpr hi)
  calc (List.range outcomes.length).filterMap
          (fun i => (run_schedule outcomes sched).lookup i)
      = (List.range outcomes.length).filterMap
          (fun i => (outcomes[i]?).map upload_single_file) := by
        apply List.filterMap_congr
        intro i hi
        exact hcong i hi
    _ = outcomes.map upload_single_file := filterMap_range_getElem outcomes _

/-- Python truthiness of a gathered result: only a `True` return counts. -/
def is_ok_true : Except PyExc Bool → Bool
  | Except.ok true => true
  | _ => false

lemma foldl_append_truthy (l : List (String × Except PyExc Bool)) :
    ∀ acc : List String,
      l.foldl
        (fun acc pr =>
          match pr.2 with
          | Except.ok true => acc ++ [pr.1]
          | _ => acc) acc =
      acc ++ (l.filter (fun pr => is_ok_true pr.2)).map Prod.fst := by
  induction l with
  | nil => intro acc; simp
  | cons pr t ih =>
    intro acc
    obtain ⟨p, r⟩ := pr
    match r with
    | Except.ok true =>
      simp only [List.foldl_cons]
      rw [ih (acc ++ [p])]
      rw [List.filter_cons]
      rw [show is_ok_true (p, Except.ok true).2 = true from rfl]
      simp
    | Except.ok false =>
      simp only [List.foldl_cons]
      rw [ih acc]
      rw [List.filter_cons]
      rw [show is_ok_true (p, Except.ok false).2 = false from rfl]
      simp
    | Except.error e =>
      simp only [List.foldl_cons]
      rw [ih acc]
      rw [List.filter_cons]
      rw [show is_ok_true (p, Except.error e).2 = false from rfl]
      simp

lemma upload_eq_filter (files : List (String × TransferOutcome)) (sched : List ℕ)
    (hperm : sched.Perm (List.range files.length)) :
    upload_files_to_api_async true files sched =
      (files.filter
        (fun f => is_ok_true (upload_single_file f.2))).map Prod.fst := by
  unfold upload_files_to_api_async
  rw [if_pos rfl]
  rw [gather_results_eq (files.map Prod.snd) sched (by simpa using hperm)]
  rw [List.map_map]
  rw [List.zip_map' Prod.fst (upload_single_file ∘ Prod.snd) files]
  rw [foldl_append_truthy]
  rw [List.nil_append]
  rw [List.filter_map]
  rw [List.map_map]
  rfl

/-- A concrete two-file batch: one transfer succeeds with status 200, the
other comes back with status 500. -/
def c4_files : List (String × TransferOutcome) :=
  [("a.png", TransferOutcome.response 200 ""),
   ("b.png", TransferOutcome.response 500 "err")]

/-- C4 counterexample. The value returned by `upload_files_to_api_async` is
NOT a list with one entry per input file: for a two-file batch with one
failure it contains only the single successful path — failures are logged
but produce no entry in the returned list. -/
theorem c4_counterexample :
    upload_files_to_api_async true c4_files [0, 1] = ["a.png"] ∧
    (upload_files_to_api_async true c4_files [0, 1]).length = 1 ∧
    c4_files.length = 2 ∧ (1 : ℕ) ≠ 2 := by
  refine ⟨by decide, by decide, by decide, by decide⟩

/-- C4 amended. The internal gathered outcome list has exactly one entry per
enumerated file, paired with the files by position and independent of the
completion schedule; the function's returned list contains exactly the
successfully uploaded files' paths, in enumeration order — failed files
contribute no entry. -/
theorem c4_amended (files : List (String × TransferOutcome)) (sched sched' : List ℕ)
    (h1 : sched.Perm (List.range files.length))
    (h2 : sched'.Perm (List.range files.length)) :
    (gather_results (files.map Prod.snd) sched).length = files.length ∧
    (∀ i : ℕ, (gather_results (files.map Prod.snd) sched)[i]? =
        ((files.map Prod.snd)[i]?).map upload_single_file) ∧
    upload_files_to_api_async true files sched =
      (files.filter (fun f => is_ok_true (upload_single_file f.2))).map Prod.fst ∧
    upload_files_to_api_async true files sched =
      upload_files_to_api_async true files sched' := by
  have hg := gather_results_eq (files.map Prod.snd) sched (by simpa using h1)
  refine ⟨?_, ?_, ?_, ?_⟩
  · rw [hg]
    simp
  · intro i
    rw [hg, List.getElem?_map]
  · exact upload_eq_filter files sched h1
  · rw [upload_eq_filter files sched h1, upload_eq_filter files sched' h2]

/-- Witness for C4 at the two-file batch under two different completion
schedules: both yield the same uploaded list. -/
theorem c4_amended_witness :
    ([1, 0] : List ℕ).Perm (List.range c4_files.length) ∧
    ([0, 1] : List ℕ).Perm (List.range c4_files.length) ∧
    upload_files_to_api_async true c4_files [1, 0] =
      upload_files_to_api_async true c4_files [0, 1] :=
  ⟨by decide, by decide,
    (c4_amended c4_files [1, 0] [0, 1] (by decide) (by decide)).2.2.2⟩

/-- C5. Per-file error containment: the transfer of one file always returns
a boolean (a timeout, client error or unexpected exception is caught, never
re-raised); the result is `True` exactly for a 200 response; and for every
completion schedule the gathered batch has one result slot per file — the
batch always runs to completion over all files. -/
theorem c5_error_containment :
    (∀ o : TransferOutcome, ∃ b : Bool, upload_single_file o = Except.ok b) ∧
    (∀ o : TransferOutcome,
        upload_single_file o = Except.ok true ↔
          ∃ body : String, o = TransferOutcome.response 200 body) ∧
    (∀ (outcomes : List TransferOutcome) (sched : List ℕ),
        sched.Perm (List.range outcomes.length) →
        (gather_results outcomes sched).length = outcomes.length ∧
        ∀ i : ℕ, (gather_results outcomes sched)[i]? =
          (outcomes[i]?).map upload_single_file) := by
  refine ⟨?_, ?_, ?_⟩
  · intro o
    cases o with
    | response s b =>
      by_cases h : s = 200
      · exact ⟨true, by simp [upload_single_file, session_post, h]⟩
      · exact ⟨false, by simp [upload_single_file, session_post, h]⟩
    | timeout => exact ⟨false, rfl⟩
    | client_error m => exact ⟨false, rfl⟩
    | unexpected_error m => exact ⟨false, rfl⟩
  · intro o
    constructor
    · intro h
      cases o with
      | response s b =>
        by_cases hs : s = 200
        · exact ⟨b, by rw [hs]⟩
        · simp [upload_single_file, session_post, hs] at h
      | timeout => simp [upload_single_file, session_post] at h
      | client_error m => simp [upload_single_file, session_post] at h
      | unexpected_error m => simp [upload_single_file, session_post] at h
    · rintro ⟨body, rfl⟩
      simp [upload_single_file, session_post]
  · intro outcomes sched hperm
    have hg := gather_results_eq outcomes sched hperm
    constructor
    · rw [hg]
      simp
    · intro i
      rw [hg, List.getElem?_map]

/-- Witness for C5 at a one-file batch whose transfer times out: the gather
still has one result slot. -/
theorem c5_error_containment_witness :
    ([0] : List ℕ).Perm (List.range ([TransferOutcome.timeout] : List TransferOutcome).length) ∧
    (gather_results [TransferOutcome.timeout] [0]).length = 1 :=
  ⟨by decide,
    (c5_error_containment.2.2 [TransferOutcome.timeout] [0] (by decide)).1⟩

instance {ε α : Type} [DecidableEq ε] [DecidableEq α] : DecidableEq (Except ε α) :=
  fun a b =>
    match a, b with
    | Except.ok x, Except.ok y => decidable_of_iff (x = y) (by simp)
    | Except.error x, Except.error y => decidable_of_iff (x = y) (by simp)
    | Except.ok _, Except.error _ => isFalse (by simp)
    | Except.error _, Except.ok _ => isFalse (by simp)

/-- C9 counterexample. With a missing root folder the publish stage does NOT
abort: it logs an error and the run completes normally with an empty
uploaded list. -/
theorem c9_counterexample :
    upload_run false c4_files [0, 1] = Except.ok [] ∧
    upload_files_to_api_async false c4_files [0, 1] = [] := by
  refine ⟨by decide, by decide⟩

/-- C9 amended. If the publish stage's local root folder does not exist, the
upload function logs an error and returns the empty uploaded list; the run
completes normally (never with an abort/exception), for every batch. -/
theorem c9_amended :
    (∀ (files : List (String × TransferOutcome)) (sched : List ℕ),
        upload_files_to_api_async false files sched = [] ∧
        upload_run false files sched = Except.ok []) ∧
    (∀ (d : Bool) (files : List (String × TransferOutcome)) (sched : List ℕ),
        ∃ l : List String, upload_run d files sched = Except.ok l) := by
  constructor
  · intro files sched
    constructor
    · simp [upload_files_to_api_async]
    · simp [upload_run, upload_files_to_api_async]
  · intro d files sched
    exact ⟨_, rfl⟩

/-! ## Python module structure and the missing `combine_maps_with_layout`

`src/data_processor.py` line 18 reads
`from src.data_visualizer import combine_maps_with_layout`, and
`src/workers.py` line 6 reads
`from src.data_processor import combine_maps_with_layout`; both
`process_backgrounds` (src/data_processor.py lines 451-456) and
`process_singl_background` (src/workers.py lines 57-63) call it.  The table
below lists, for every Python file of the repository, the names bound at its
top level by `def`, `class` and module-level assignment statements.  The
model of importing is deliberately generous: it assumes every other
name resolves and only checks whether the one requested symbol can be bound,
which over-approximates Python's behaviour (the real import additionally
fails on a circular-import chain through `src.raster_utils`). -/

/-- Top-level `def`/`class`/assignment names of every Python file in the
repository. -/
def src_modules : List (String × List String) :=
  [("main",
    ["sftp_host", "sftp_username", "sftp_password", "sftp_port", "ftp_host",
     "ftp_username", "ftp_password", "path_config", "temp_folder",
     "temp_cropped_images", "temp_folder_trans", "temp_polder_rec",
     "temp_folder_img_v1", "temp_folder_img_v2", "temp_folder_final",
     "path_to_sours", "path_to_tamplates", "frame_to_raster", "path_countrys",
     "path_central_countrys", "path_sea", "remote_sftp_dir", "remote_ftp_dir",
     "main"]),
   ("src.connection",
    ["connect_to_sftp", "upload_directory_in_sftp", "remove_old_sftp_folders",
     "_remove_directory_in_sftp", "disconnect_from_sftp", "connect_to_ftp",
     "upload_files_to_ftp", "disconnect_from_ftp"]),
   ("src.constants",
    ["PALETTES_V2", "PALETTES_V1", "PARAMETERS", "CRS_FOR_DATA"]),
   ("src.data_loader",
    ["create_data_folder_path", "grab_files", "load_config",
     "load_data_from_mask_raster", "load_shp", "read_and_clip_raster",
     "remove_local_directory"]),
   ("src.data_processor",
    ["convert_coordinate_systen_in_raster", "convert_png_to_jpg",
     "create_visualization_countinious_with_shapefiles",
     "ensure_directory_exists", "ensure_directories_exist", "process_rasters",
     "process_raster_for_layout", "process_backgrounds", "reclassify_raster"]),
   ("src.data_visualizer",
    ["PaletteConfig", "select_palette", "generate_palette_images",
     "generate_visualizations"]),
   ("src.enviroment",
    ["prepere_enviroment", "cleanup", "collect_templates",
     "generate_templates"]),
   ("src.generator", ["generate_templates"]),
   ("src.logging_utils",
    ["path_to_log_file", "logger_level", "setup_logger"]),
   ("src.process_raster",
    ["convert_coordinate_systen_in_raster", "process_rasters"]),
   ("src.raster_utils",
    ["process_raster_for_layout", "reclassify_raster",
     "rename_and_copy_images"]),
   ("src.workers", ["process_singl_background"]),
   ("src.sftp_connection",
    ["connect_to_sftp", "upload_directory", "disconnect_from_sftp"]),
   ("src.transport.api",
    ["RED", "GREEN", "RESET", "upload_results_async",
     "upload_files_to_api_async", "upload_single_file", "upload_files_to_api",
     "upload_results"]),
   ("src.transport.ftp",
    ["connect_to_ftp", "upload_files_to_ftp", "disconnect_from_ftp"]),
   ("src.transport.sftp",
    ["connect_to_sftp", "upload_directory_in_sftp", "remove_old_sftp_folders",
     "_remove_directory_in_sftp", "disconnect_from_sftp"])]

/-- All names importable from `src.data_visualizer` under the generous
assumption that every one of its own imports succeeds: its top-level
definitions plus the names its own `from`-imports would bind. -/
def data_visualizer_names : List String :=
  ["dataclass", "logging", "Path", "os", "tqdm", "load_visual_shapefiles",
   "PALETTES_V1", "PALETTES_V2", "process_raster_for_layout",
   "rename_and_copy_images", "PaletteConfig", "select_palette",
   "generate_palette_images", "generate_visualizations"]

/-- `from M import name`: succeeds exactly when `name` is bound in `M`. -/
def py_import_name (available : List String) (name : String) : Except String Unit :=
  if name ∈ available then Except.ok ()
  else Except.error ("ImportError: cannot import name " ++ name)

/-- Importing `src.data_processor` executes its line 18,
`from src.data_visualizer import combine_maps_with_layout`. -/
def import_data_processor : Except String Unit :=
  py_import_name data_visualizer_names "combine_maps_with_layout"

/-- Importing `src.workers` executes its line 6,
`from src.data_processor import combine_maps_with_layout`, which first needs
`src.data_processor` itself to import. -/
def import_workers : Except String Unit :=
  match import_data_processor with
  | Except.ok _ => Except.ok ()
  | Except.error e => Except.error e

/-- C10. `combine_maps_with_layout` is bound at the top level of no module
of the repository; consequently importing `src.data_processor` fails at its
line 18 and importing `src.workers` fails with it, so neither the
sequential compositing path (`process_backgrounds`) nor the per-process
worker (`process_singl_background`) can ever be invoked. -/
theorem c10_missing_compositor :
    src_modules.all
      (fun m => m.2.all (fun s => ! (s == "combine_maps_with_layout"))) = true ∧
    import_data_processor =
      Except.error "ImportError: cannot import name combine_maps_with_layout" ∧
    import_workers =
      Except.error "ImportError: cannot import name combine_maps_with_layout" := by
  refine ⟨by decide, by decide, by decide⟩
